import Mathlib

/-
Verification of the QuickSeed progressive streaming subsystem.

Shallow embedding of the Go sources:
  * `pkg/stream/http_server.go` — the HTTP range-serving layer
    (`handleStream`, `handleRange` and their copy loops);
  * `pkg/api/engine.go` / `pkg/engine/torrent_engine.go` — the engine
    (`SelectFile`, `enableSequentialDownload`, `isStreamReady`).

Modelling conventions:
  * Go strings are embedded as `List Char`; Go `int64` / `int` as `Int` or
    `Nat` (no arithmetic in the modelled paths can overflow 64 bits: parsed
    range bounds are checked against `math.MaxInt64` exactly as
    `strconv.ParseInt` does, and all later arithmetic stays within those
    bounds).
  * The swarm-backed file is a `List Nat` of its canonical bytes.  Per the
    reader contract assumed by the claims, `torrent.Reader` is modelled as an
    ideal reader: `Seek(start, 0)` positions it at `start` and each
    `Read(buffer[:n])` returns the next `min n (len - pos)` canonical bytes,
    returning `0, io.EOF` at end of file; client writes never fail.
  * An HTTP response is reduced to the fields the specification talks about:
    status, the CORS header block, `Content-Range`, `Content-Length`, and the
    file bytes written to the body (`http.Error` writes only its text
    message, which is not part of `body`).
-/

namespace QuickSeed

/-- The observable part of one HTTP exchange: response status, whether the
permissive CORS header block of `handleStream` was set, the `Content-Range`
header value (if set), the `Content-Length` header value (if set), and the
file bytes written to the response body. -/
structure HttpResponse where
  status : Nat
  cors : Bool
  contentRange : Option (List Char)
  contentLength : Option Int
  body : List Nat
deriving DecidableEq

/-! ### Range header parsing

`handleRange` does `strings.TrimPrefix(rangeHeader, "bytes=")`, then
`strings.Split(rangeHeader, "-")`, then `strconv.ParseInt(part, 10, 64)` on
the non-empty parts. -/

/-- The characters of the literal `"bytes="`. -/
def rangeUnitTag : List Char := ['b', 'y', 't', 'e', 's', '=']

/-- `strings.TrimPrefix(s, "bytes=")`: drop the leading `"bytes="` if present,
otherwise return `s` unchanged. -/
def trimBytesTag (s : List Char) : List Char :=
  if s.take 6 = rangeUnitTag then s.drop 6 else s

/-- `strings.Split(s, "-")` for the one-character separator `'-'`: splits
around every dash, keeping empty parts; the result is never empty
(`Split("", "-") = [""]`). -/
def splitDash : List Char → List (List Char)
  | [] => [[]]
  | c :: rest =>
    if c = '-' then [] :: splitDash rest
    else
      match splitDash rest with
      | [] => [[c]]
      | p :: ps => (c :: p) :: ps

/-- Decimal digit value of a character, `none` when the character is not an
ASCII digit (`strconv.ParseInt` rejects any non-digit in base 10). -/
def digitVal (c : Char) : Option Nat :=
  if '0' ≤ c ∧ c ≤ '9' then some (c.toNat - '0'.toNat) else none

/-- Accumulate the decimal value of a digit string, failing on the first
non-digit character. -/
def decDigitsAux : List Char → Nat → Option Nat
  | [], acc => some acc
  | c :: rest, acc =>
    match digitVal c with
    | none => none
    | some d => decDigitsAux rest (acc * 10 + d)

/-- `strconv.ParseInt(s, 10, 64)`: an optional leading sign followed by at
least one decimal digit; errors (`none`) on the empty string, on a lone sign,
on any non-digit, and when the value does not fit in a signed 64-bit
integer. -/
def goParseInt (s : List Char) : Option Int :=
  match s with
  | [] => none
  | _ =>
    let signAndDigits : Bool × List Char :=
      match s with
      | '+' :: rest => (false, rest)
      | '-' :: rest => (true, rest)
      | _ => (false, s)
    match signAndDigits.2 with
    | [] => none
    | _ =>
      match decDigitsAux signAndDigits.2 0 with
      | none => none
      | some v =>
        let iv : Int := if signAndDigits.1 then -(v : Int) else (v : Int)
        if iv < -(2 ^ 63) ∨ 2 ^ 63 ≤ iv then none else some iv

/-- The parts of a Range header: `strings.Split(strings.TrimPrefix(h,
"bytes="), "-")`. -/
def rangeParts (rangeHeader : List Char) : List (List Char) :=
  splitDash (trimBytesTag rangeHeader)

/-- The start bound: `parts[0]` parsed when non-empty, else the default `0`;
`none` models the `ParseInt` error path. -/
def parseStart (parts : List (List Char)) : Option Int :=
  match parts with
  | [] => some 0
  | p :: _ => if p = [] then some 0 else goParseInt p

/-- The end bound: `parts[1]` parsed when present and non-empty, else the
default `fileSize - 1` (passed in as `dflt`); `none` models the `ParseInt`
error path. -/
def parseEnd (parts : List (List Char)) (dflt : Int) : Option Int :=
  match parts with
  | _ :: p :: _ => if p = [] then some dflt else goParseInt p
  | _ => some dflt

/-! ### Decimal rendering used by `fmt.Sprintf` for the headers -/

/-- Decimal rendering of an `Int`, as `fmt.Sprintf("%d", i)` produces it. -/
def intToDec (i : Int) : List Char :=
  if i < 0 then '-' :: Nat.toDigits 10 (-i).toNat else Nat.toDigits 10 i.toNat

/-- `fmt.Sprintf("bytes %d-%d/%d", start, end, fileSize)`. -/
def contentRangeValue (start endPos fileSize : Int) : List Char :=
  ['b', 'y', 't', 'e', 's', ' '] ++ intToDec start ++ ['-'] ++ intToDec endPos
    ++ ['/'] ++ intToDec fileSize

/-- `fmt.Sprintf("bytes */%d", fileSize)`. -/
def contentRangeUnsat (fileSize : Int) : List Char :=
  ['b', 'y', 't', 'e', 's', ' ', '*', '/'] ++ intToDec fileSize

/-! ### The copy loops -/

/-- The bounded copy loop of `handleRange`: repeatedly read
`min (64*1024) remaining` bytes through the (ideal) reader at position `pos`
and write them, until `remaining` bytes were delivered or the reader hits
EOF (a read returning 0 bytes).  `fuel` bounds the number of iterations;
since every non-final iteration delivers at least one byte, `remaining`
iterations always suffice and `handleRange` calls the loop with
`fuel = remaining`. -/
def rangeCopyLoop (file : List Nat) : Nat → Nat → Nat → List Nat
  | 0, _, _ => []
  | fuel + 1, pos, remaining =>
    if remaining = 0 then []
    else
      let toRead := min (64 * 1024) remaining
      let chunk := (file.drop pos).take toRead
      if chunk.length = 0 then []
      else chunk ++ rangeCopyLoop file fuel (pos + chunk.length) (remaining - chunk.length)

/-- The full-content copy loop of `handleStream`: read 128KB chunks from
position `pos` until EOF.  `fuel` bounds the iterations; `file.length + 1`
always suffices. -/
def streamLoop (file : List Nat) : Nat → Nat → List Nat
  | 0, _ => []
  | fuel + 1, pos =>
    let chunk := (file.drop pos).take (128 * 1024)
    if chunk.length = 0 then []
    else chunk ++ streamLoop file fuel (pos + chunk.length)

/-! ### `handleRange` (pkg/stream/http_server.go, lines 415–503) -/

/-- The response produced by `http.Error(w, "Invalid range", 416)` on the two
`ParseInt` failure paths: a plain 416 with NO `Content-Range` header. -/
def invalidRange416 : HttpResponse :=
  { status := 416, cors := false, contentRange := none, contentLength := none, body := [] }

/-- `handleRange`: trim `"bytes="`, split on `'-'`, parse the bounds with
defaults `0` and `fileSize - 1`, reject out-of-bounds ranges with 416 plus a
`Content-Range: bytes */<fileSize>` header, and otherwise answer 206 with
`Content-Range: bytes <start>-<end>/<fileSize>`,
`Content-Length = end-start+1`, and the bytes produced by the 64KB copy loop
after seeking the reader to `start`.  (The CORS and streaming headers are set
by the caller `handleStream`, hence `cors := false` here.) -/
def handleRange (file : List Nat) (rangeHeader : List Char) : HttpResponse :=
  match parseStart (rangeParts rangeHeader) with
  | none => invalidRange416
  | some start =>
    match parseEnd (rangeParts rangeHeader) ((file.length : Int) - 1) with
    | none => invalidRange416
    | some endPos =>
      if start < 0 ∨ endPos ≥ (file.length : Int) ∨ start > endPos then
        { status := 416, cors := false,
          contentRange := some (contentRangeUnsat (file.length : Int)),
          contentLength := none, body := [] }
      else
        { status := 206, cors := false,
          contentRange := some (contentRangeValue start endPos (file.length : Int)),
          contentLength := some (endPos - start + 1),
          body := rangeCopyLoop file (endPos - start + 1).toNat start.toNat
                    (endPos - start + 1).toNat }

/-! ### `handleStream` (pkg/stream/http_server.go, lines 302–412) -/

/-- The characters of the method literal `"GET"`. -/
def methodGET : List Char := ['G', 'E', 'T']

/-- The characters of the method literal `"HEAD"`. -/
def methodHEAD : List Char := ['H', 'E', 'A', 'D']

/-- The characters of the method literal `"OPTIONS"`. -/
def methodOPTIONS : List Char := ['O', 'P', 'T', 'I', 'O', 'N', 'S']

/-- `handleStream`: 503 when no file is set; 405 for any method other than
GET or HEAD; then the CORS and streaming headers are set, followed by the
OPTIONS branch (unreachable: OPTIONS was already rejected by the 405 guard,
the branch is kept to mirror the source), the HEAD branch, the Range branch
delegating to `handleRange`, and the full-content branch.  `rangeHeader`
is `r.Header.Get("Range")`, the empty list meaning the header is absent. -/
def handleStream (file : Option (List Nat)) (method : List Char)
    (rangeHeader : List Char) : HttpResponse :=
  match file with
  | none =>
    { status := 503, cors := false, contentRange := none, contentLength := none, body := [] }
  | some f =>
    if method ≠ methodGET ∧ method ≠ methodHEAD then
      { status := 405, cors := false, contentRange := none, contentLength := none, body := [] }
    else if method = methodOPTIONS then
      { status := 200, cors := true, contentRange := none, contentLength := none, body := [] }
    else if method = methodHEAD then
      { status := 200, cors := true, contentRange := none,
        contentLength := some (f.length : Int), body := [] }
    else if rangeHeader ≠ [] then
      let resp := handleRange f rangeHeader
      { resp with cors := true }
    else
      { status := 200, cors := true, contentRange := none,
        contentLength := some (f.length : Int),
        body := streamLoop f (f.length + 1) 0 }

/-! ### The engine (pkg/api/engine.go concatenated with
pkg/engine/torrent_engine.go) -/

/-- The sample-window size of `isStreamReady`:
`firstPieces := int(float64(numPieces) * 0.05); if firstPieces < 5 { 5 }`.
Truncating the correctly rounded double `numPieces * 0.05` coincides with the
integer division `numPieces / 20` for every piece count below `2 ^ 50` (a
torrent's piece count is far below that), so the float step is embedded as
Nat division. -/
def firstPiecesCount (numPieces : Nat) : Nat :=
  if numPieces / 20 < 5 then 5 else numPieces / 20

/-- The count accumulated by the loop
`for i := 0; i < firstPieces && i < NumPieces(); i++ { if Complete then
completed++ }`: torrent piece `i` is modelled by `pieces.getD i false`
(`true` = `Complete`). -/
def completedInWindow (pieces : List Bool) : Nat :=
  ((List.range (min (firstPiecesCount pieces.length) pieces.length)).filter
    (fun i => pieces.getD i false)).length

/-- `isStreamReady`: `false` while no file is selected (`e.file == nil`),
otherwise `float64(completed)/float64(firstPieces) > 0.5` over the torrent's
piece states.  The double-precision quotient of two integers below `2 ^ 50`
compares against `0.5` exactly as the rational quotient does, so the
comparison is embedded over `ℚ`.  The `file` argument is the selected file
index (`none` = nil); the readiness computation itself only reads the
torrent-level piece states `pieces`. -/
def isStreamReady (file : Option Nat) (pieces : List Bool) : Bool :=
  match file with
  | none => false
  | some _ =>
    decide (((completedInWindow pieces : ℚ) / (firstPiecesCount pieces.length : ℚ))
      > (1 : ℚ) / 2)

/-- The hot-window width of `enableSequentialDownload`:
`piecesToPrioritize := 10; if numPieces < 200 { numPieces / 20, clamped up
to 3 }`. -/
def piecesToPrioritize (numPieces : Nat) : Nat :=
  if numPieces < 200 then
    if numPieces / 20 < 3 then 3 else numPieces / 20
  else 10

/-- The piece indices that receive `SetPriority(PiecePriorityNow)` in the
loop `for i := 0; i < piecesToPrioritize && i < numPieces; i++`. -/
def primedPieces (numPieces : Nat) : List Nat :=
  List.range (min (piecesToPrioritize numPieces) numPieces)

/-- The `TorrentEngine` state touched by the claims: whether a torrent is
loaded (`e.torrent != nil`), the number of files in it, the torrent-level
piece completion states, the selected file `e.file` (`none` = nil) and the
file currently set on the HTTP server via `server.SetFile`.  Piece-priority
hints go to the swarm collaborator and are not part of this state. -/
structure TorrentEngine where
  torrentLoaded : Bool
  numFiles : Nat
  pieces : List Bool
  file : Option Nat
  serverFile : Option Nat
deriving DecidableEq

/-- `SelectFile`: error `"no torrent loaded"` when `e.torrent == nil`; error
`"file index ... out of range ..."` when `index < 0 || index >= len(files)`;
otherwise set `e.file` and the server's file to the new index (the
`SetPriority` call and the `enableSequentialDownload` goroutine only emit
priority hints to the swarm).  Go mutates the receiver in place, embedded
here as explicit state passing: the returned state is the engine after the
call, the `Option String` is the returned error. -/
def SelectFile (e : TorrentEngine) (index : Int) : TorrentEngine × Option String :=
  if e.torrentLoaded = false then (e, some "no torrent loaded")
  else if index < 0 ∨ index ≥ (e.numFiles : Int) then (e, some "file index out of range")
  else ({ e with file := some index.toNat, serverFile := some index.toNat }, none)

/-- The engine's readiness report, `e.isStreamReady()` as used by `Stats()`:
the nil-file guard plus the sample-window computation over the torrent's
pieces. -/
def engineIsStreamReady (e : TorrentEngine) : Bool :=
  isStreamReady e.file e.pieces

/-! ### Shared helper lemmas -/

/-- Under the ideal-reader model, when the requested window lies inside the
file, the bounded copy loop of `handleRange` delivers exactly the requested
slice. -/
theorem rangeCopyLoop_eq_slice (file : List Nat) :
    ∀ fuel pos remaining, remaining ≤ fuel → pos + remaining ≤ file.length →
      rangeCopyLoop file fuel pos remaining = (file.drop pos).take remaining := by
  intro fuel
  induction fuel with
  | zero =>
    intro pos remaining h1 _
    have h0 : remaining = 0 := Nat.le_zero.mp h1
    subst h0
    rfl
  | succ fuel ih =>
    intro pos remaining h1 h2
    by_cases hr : remaining = 0
    · subst hr
      simp [rangeCopyLoop]
    · have hlen : ((file.drop pos).take (min (64 * 1024) remaining)).length
          = min (64 * 1024) remaining := by
        rw [List.length_take, List.length_drop]
        omega
      simp only [rangeCopyLoop, if_neg hr, hlen]
      rw [if_neg (by omega)]
      rw [ih (pos + min (64 * 1024) remaining) (remaining - min (64 * 1024) remaining)
        (by omega) (by omega)]
      have hdd : file.drop (pos + min (64 * 1024) remaining)
          = (file.drop pos).drop (min (64 * 1024) remaining) :=
        (List.drop_drop (min (64 * 1024) remaining) pos file).symm
      rw [hdd, ← List.take_add]
      have hsum : min (64 * 1024) remaining + (remaining - min (64 * 1024) remaining)
          = remaining := by omega
      rw [hsum]

/-- Comparing an integer ratio against one half: `c / w > 1/2` over `ℚ` is
the strict-majority condition `w < 2 * c`. -/
theorem half_lt_div_iff (c w : Nat) (hw : 0 < w) :
    ((1 : ℚ) / 2 < (c : ℚ) / (w : ℚ)) ↔ w < 2 * c := by
  rw [div_lt_div_iff₀ (by norm_num) (by exact_mod_cast hw), one_mul]
  rw [show ((c : ℚ) * 2) = ((2 * c : Nat) : ℚ) by push_cast; ring]
  exact Nat.cast_lt

/-- A successfully parsed in-bounds range is served as a 206 whose headers
and body are determined by the bounds: the workhorse behind the range-serving
claims. -/
theorem handleRange_serves_valid (file : List Nat) (hdr : List Char) (s e : Int)
    (hs : parseStart (rangeParts hdr) = some s)
    (he : parseEnd (rangeParts hdr) ((file.length : Int) - 1) = some e)
    (h0 : 0 ≤ s) (hse : s ≤ e) (heL : e < (file.length : Int)) :
    handleRange file hdr =
      { status := 206, cors := false,
        contentRange := some (contentRangeValue s e (file.length : Int)),
        contentLength := some (e - s + 1),
        body := (file.drop s.toNat).take (e - s + 1).toNat } := by
  unfold handleRange
  simp only [hs, he]
  rw [if_neg (by omega)]
  congr 1
  exact rangeCopyLoop_eq_slice file (e - s + 1).toNat s.toNat (e - s + 1).toNat
    (Nat.le_refl _) (by omega)

/-- A GET with a non-empty Range header delegates to `handleRange`, with the
CORS header block already set by `handleStream`. -/
theorem handleStream_get_range (f : List Nat) (hdr : List Char) (hne : hdr ≠ []) :
    handleStream (some f) methodGET hdr = { handleRange f hdr with cors := true } := by
  simp [handleStream, methodGET, methodHEAD, methodOPTIONS, hne]

/-- With a file selected, `isStreamReady` holds exactly when strictly more
than half of the `max 5 (n / 20)`-piece sample window is complete: the
rational comparison against `0.5` reduced to a Nat strict-majority test. -/
theorem isStreamReady_iff (k : Nat) (pieces : List Bool) :
    isStreamReady (some k) pieces = true ↔
      max 5 (pieces.length / 20) < 2 * completedInWindow pieces := by
  have hw : firstPiecesCount pieces.length = max 5 (pieces.length / 20) := by
    unfold firstPiecesCount
    split <;> omega
  have hwpos : (0 : ℚ) < (firstPiecesCount pieces.length : ℚ) := by
    have h5 : 0 < firstPiecesCount pieces.length := by rw [hw]; omega
    exact_mod_cast h5
  simp only [isStreamReady]
  rw [decide_eq_true_eq, gt_iff_lt]
  rw [div_lt_div_iff₀ (by norm_num) hwpos, one_mul]
  rw [show ((completedInWindow pieces : ℚ) * 2)
        = ((2 * completedInWindow pieces : Nat) : ℚ) by push_cast; ring]
  rw [Nat.cast_lt, hw]

/-- The hot-window width is always at least 3 and at most 10. -/
theorem piecesToPrioritize_bounds (n : Nat) :
    3 ≤ piecesToPrioritize n ∧ piecesToPrioritize n ≤ 10 := by
  unfold piecesToPrioritize
  split
  · split <;> omega
  · omega

/-- A concrete engine: torrent loaded, two files, all ten pieces complete,
file 0 selected and set on the server. -/
def exEngine : TorrentEngine :=
  { torrentLoaded := true, numFiles := 2, pieces := List.replicate 10 true,
    file := some 0, serverFile := some 0 }

/-! ### The claims -/

/-- C1: for every selected file with total length `L` and every range request
whose parsed bounds satisfy `0 ≤ start ≤ end < L`, the stream endpoint
responds 206 with `Content-Range: bytes <start>-<end>/<L>`,
`Content-Length = end-start+1`, and a body that is exactly the `end-start+1`
bytes of the file slice `[start, end]` in increasing offset order (under the
ideal-reader precondition the claim states: the reader delivers the canonical
bytes with no early EOF and no client disconnect). -/
theorem valid_range_served_exactly (file : List Nat) (hdr : List Char) (s e : Int)
    (hs : parseStart (rangeParts hdr) = some s)
    (he : parseEnd (rangeParts hdr) ((file.length : Int) - 1) = some e)
    (h0 : 0 ≤ s) (hse : s ≤ e) (heL : e < (file.length : Int)) :
    handleRange file hdr =
      { status := 206, cors := false,
        contentRange := some (contentRangeValue s e (file.length : Int)),
        contentLength := some (e - s + 1),
        body := (file.drop s.toNat).take (e - s + 1).toNat } ∧
    (handleRange file hdr).body.length = (e - s + 1).toNat := by
  have hres := handleRange_serves_valid file hdr s e hs he h0 hse heL
  refine ⟨hres, ?_⟩
  rw [hres]
  simp only [List.length_take, List.length_drop]
  omega

/-- Witness for C1: file `[10,20,30,40,50]`, request `Range: bytes=1-3`. -/
theorem valid_range_served_exactly_witness :
    parseStart (rangeParts ['b', 'y', 't', 'e', 's', '=', '1', '-', '3']) = some 1 ∧
    parseEnd (rangeParts ['b', 'y', 't', 'e', 's', '=', '1', '-', '3'])
      ((([10, 20, 30, 40, 50] : List Nat).length : Int) - 1) = some 3 ∧
    handleRange [10, 20, 30, 40, 50] ['b', 'y', 't', 'e', 's', '=', '1', '-', '3'] =
      { status := 206, cors := false,
        contentRange := some (contentRangeValue 1 3 5),
        contentLength := some 3,
        body := [20, 30, 40] } := by
  refine ⟨by decide, by decide, ?_⟩
  have h := valid_range_served_exactly [10, 20, 30, 40, 50]
    ['b', 'y', 't', 'e', 's', '=', '1', '-', '3'] 1 3
    (by decide) (by decide) (by decide) (by decide) (by decide)
  rw [h.1]
  decide

/-- C2 counterexample: the request `Range: bytes=x` against a 1-byte file is
rejected 416 because `ParseInt` fails, and that 416 carries NO
`Content-Range` header — refuting the claim that every 416 includes
`Content-Range: bytes */<totalLength>`. -/
theorem parse_failure_416_lacks_content_range :
    (handleRange [0] ['b', 'y', 't', 'e', 's', '=', 'x']).status = 416 ∧
    (handleRange [0] ['b', 'y', 't', 'e', 's', '=', 'x']).contentRange = none := by
  decide

/-- C2 (amended): a 416 response carries `Content-Range: bytes */<L>` exactly
when both bounds of the Range header parsed successfully (i.e. the rejection
was a bounds violation); a 416 due to a parse failure is sent without any
`Content-Range` header. -/
theorem content_range_on_416_iff_parsed (file : List Nat) (hdr : List Char)
    (h416 : (handleRange file hdr).status = 416) :
    ((handleRange file hdr).contentRange
        = some (contentRangeUnsat (file.length : Int)) ↔
      (parseStart (rangeParts hdr)).isSome ∧
      (parseEnd (rangeParts hdr) ((file.length : Int) - 1)).isSome) := by
  cases hps : parseStart (rangeParts hdr) with
  | none =>
    simp only [handleRange, hps]
    simp [invalidRange416]
  | some s =>
    cases hpe : parseEnd (rangeParts hdr) ((file.length : Int) - 1) with
    | none =>
      simp only [handleRange, hps, hpe]
      simp [invalidRange416]
    | some e =>
      simp only [handleRange, hps, hpe] at h416 ⊢
      by_cases hb : s < 0 ∨ e ≥ (file.length : Int) ∨ s > e
      · rw [if_pos hb]
        simp
      · rw [if_neg hb] at h416
        simp at h416

/-- Witness for C2 (amended): `Range: bytes=5-9` against a 1-byte file is a
bounds-violation 416 whose `Content-Range` is `bytes */1`. -/
theorem content_range_on_416_iff_parsed_witness :
    (handleRange [0] ['b', 'y', 't', 'e', 's', '=', '5', '-', '9']).status = 416 ∧
    ((handleRange [0] ['b', 'y', 't', 'e', 's', '=', '5', '-', '9']).contentRange
        = some (contentRangeUnsat (([0] : List Nat).length : Int)) ↔
      (parseStart (rangeParts ['b', 'y', 't', 'e', 's', '=', '5', '-', '9'])).isSome ∧
      (parseEnd (rangeParts ['b', 'y', 't', 'e', 's', '=', '5', '-', '9'])
        ((([0] : List Nat).length : Int) - 1)).isSome) :=
  ⟨by decide,
   content_range_on_416_iff_parsed [0] ['b', 'y', 't', 'e', 's', '=', '5', '-', '9']
     (by decide)⟩

/-- C3 (code bug): with a file selected, an OPTIONS request to the stream
endpoint is rejected with 405 and without the CORS header block — the
explicit OPTIONS branch of `handleStream` is unreachable because the
GET/HEAD-only guard runs first — contradicting the claimed 200-with-CORS
response that the dead branch was clearly intended to produce. -/
theorem options_rejected_405 (f : List Nat) (rh : List Char) :
    (handleStream (some f) methodOPTIONS rh).status = 405 ∧
    (handleStream (some f) methodOPTIONS rh).cors = false := by
  constructor <;> rfl

set_option maxRecDepth 4000 in
/-- C4: the readiness check reports Ready if and only if the number of
Complete pieces among the sample window of `max 5 (floor (0.05 * n))` first
pieces strictly exceeds half the window; in particular a state where exactly
50% of the window is Complete (5 of 10, for 200 pieces) is NOT Ready. -/
theorem readiness_strict_majority :
    (∀ (k : Nat) (pieces : List Bool),
        isStreamReady (some k) pieces = true ↔
          max 5 (pieces.length / 20) < 2 * completedInWindow pieces) ∧
    isStreamReady (some 0) (List.replicate 5 true ++ List.replicate 195 false)
      = false := by
  refine ⟨fun k pieces => isStreamReady_iff k pieces, ?_⟩
  cases hb : isStreamReady (some 0) (List.replicate 5 true ++ List.replicate 195 false)
  · rfl
  · exfalso
    have h := (isStreamReady_iff 0 _).mp hb
    revert h
    decide

/-- C5 counterexample: the engine has every torrent piece complete and
reports Ready on file 0; switching to file 1 succeeds, and IMMEDIATELY after
the switch the engine still reports Ready — refuting the claim that a file
switch resets readiness to Initializing / not-Ready. -/
theorem switch_does_not_reset_readiness :
    (SelectFile exEngine 1).2 = none ∧
    engineIsStreamReady exEngine = true ∧
    engineIsStreamReady (SelectFile exEngine 1).1 = true := by
  have hsel : (SelectFile exEngine 1).1 =
      { torrentLoaded := true, numFiles := 2, pieces := List.replicate 10 true,
        file := some 1, serverFile := some 1 } := by decide
  refine ⟨by decide, ?_, ?_⟩
  · show isStreamReady (some 0) (List.replicate 10 true) = true
    rw [isStreamReady_iff]
    decide
  · rw [hsel]
    show isStreamReady (some 1) (List.replicate 10 true) = true
    rw [isStreamReady_iff]
    decide

/-- C5 (amended): a successful `SelectFile` does not reset readiness:
readiness stays the on-demand function of the torrent-level piece states,
which the switch leaves untouched, so the engine reports after the switch
exactly what the same sample window reported before — in particular a
previously Ready torrent is still reported Ready. -/
theorem selectFile_keeps_readiness (e : TorrentEngine) (i : Int)
    (hok : (SelectFile e i).2 = none) :
    engineIsStreamReady (SelectFile e i).1 = isStreamReady (some i.toNat) e.pieces ∧
    (e.file ≠ none → engineIsStreamReady (SelectFile e i).1 = engineIsStreamReady e) := by
  by_cases h1 : e.torrentLoaded = false
  · exfalso
    unfold SelectFile at hok
    rw [if_pos h1] at hok
    simp at hok
  · by_cases h2 : i < 0 ∨ i ≥ (e.numFiles : Int)
    · exfalso
      unfold SelectFile at hok
      rw [if_neg h1, if_pos h2] at hok
      simp at hok
    · have hsel : SelectFile e i =
          ({ e with file := some i.toNat, serverFile := some i.toNat }, none) := by
        unfold SelectFile
        rw [if_neg h1, if_neg h2]
      rw [hsel]
      refine ⟨rfl, fun hf => ?_⟩
      cases hfe : e.file with
      | none => exact absurd hfe hf
      | some k =>
        show isStreamReady (some i.toNat) e.pieces = engineIsStreamReady e
        unfold engineIsStreamReady
        rw [hfe]
        exact rfl

/-- Witness for C5 (amended) at the concrete engine `exEngine`, switching to
file 1. -/
theorem selectFile_keeps_readiness_witness :
    (SelectFile exEngine 1).2 = none ∧
    (engineIsStreamReady (SelectFile exEngine 1).1
        = isStreamReady (some (1 : Int).toNat) exEngine.pieces ∧
      (exEngine.file ≠ none →
        engineIsStreamReady (SelectFile exEngine 1).1 = engineIsStreamReady exEngine)) :=
  ⟨by decide, selectFile_keeps_readiness exEngine 1 (by decide)⟩

/-- C6: for every `pieceCount ≥ 1` the hot-window width computed when
priming sequential download equals `min 10 (max 3 (pieceCount / 20))`; in
particular it is 3, 3, 3, 10, 10 for piece counts 1, 19, 20, 200, 4000. -/
theorem hotWindow_width_formula (n : Nat) (h : 1 ≤ n) :
    piecesToPrioritize n = min 10 (max 3 (n / 20)) ∧
    (piecesToPrioritize 1 = 3 ∧ piecesToPrioritize 19 = 3 ∧
      piecesToPrioritize 20 = 3 ∧ piecesToPrioritize 200 = 10 ∧
      piecesToPrioritize 4000 = 10) := by
  constructor
  · unfold piecesToPrioritize
    split
    · split <;> omega
    · omega
  · exact ⟨by decide, by decide, by decide, by decide, by decide⟩

/-- Witness for C6 at `pieceCount = 4000`. -/
theorem hotWindow_width_formula_witness :
    1 ≤ 4000 ∧ piecesToPrioritize 4000 = min 10 (max 3 (4000 / 20)) :=
  ⟨by decide, (hotWindow_width_formula 4000 (by decide)).1⟩

/-- C7 counterexample: a 1-piece torrent gets exactly ONE
`SetPriority(Now)` call when primed — the loop is also bounded by the piece
count — refuting the claim that at least 3 pieces are always prioritized for
every `pieceCount ≥ 1`. -/
theorem one_piece_torrent_primes_one :
    (primedPieces 1).length = 1 ∧ ¬ 3 ≤ (primedPieces 1).length := by
  decide

/-- C7 (amended): priming issues `Now` priority to exactly
`min width pieceCount` pieces (the loop is bounded by the piece count as well
as by the window width), so at least 3 pieces are prioritized whenever
`pieceCount ≥ 3`, while torrents with 1 or 2 pieces get only `pieceCount`
calls. -/
theorem primed_pieces_count (n : Nat) :
    (primedPieces n).length = min (piecesToPrioritize n) n ∧
    (3 ≤ n → 3 ≤ (primedPieces n).length) := by
  constructor
  · simp [primedPieces]
  · intro h3
    have hw := piecesToPrioritize_bounds n
    simp only [primedPieces, List.length_range]
    omega

/-- Witness for C7 (amended) at `pieceCount = 4`. -/
theorem primed_pieces_count_witness :
    (primedPieces 4).length = min (piecesToPrioritize 4) 4 ∧
    3 ≤ (primedPieces 4).length :=
  ⟨(primed_pieces_count 4).1, (primed_pieces_count 4).2 (by decide)⟩

/-- C8: with a torrent loaded, `SelectFile index` returns an error exactly
when `index < 0` or `index ≥ numFiles`; and on error the engine state — in
particular the selected file and the file set on the HTTP server — is
unchanged. -/
theorem selectFile_index_check (e : TorrentEngine) (i : Int)
    (h : e.torrentLoaded = true) :
    ((SelectFile e i).2 ≠ none ↔ (i < 0 ∨ (e.numFiles : Int) ≤ i)) ∧
    ((SelectFile e i).2 ≠ none → (SelectFile e i).1 = e) := by
  unfold SelectFile
  rw [if_neg (by rw [h]; simp)]
  by_cases h2 : i < 0 ∨ i ≥ (e.numFiles : Int)
  · rw [if_pos h2]
    exact ⟨⟨fun _ => h2, fun _ => by simp⟩, fun _ => rfl⟩
  · rw [if_neg h2]
    exact ⟨⟨fun hc => absurd rfl hc, fun hc => absurd hc h2⟩,
           fun hc => absurd rfl hc⟩

/-- Witness for C8 at `exEngine` (2 files) with the invalid index 5. -/
theorem selectFile_index_check_witness :
    exEngine.torrentLoaded = true ∧
    (((SelectFile exEngine 5).2 ≠ none ↔
        ((5 : Int) < 0 ∨ (exEngine.numFiles : Int) ≤ 5)) ∧
      ((SelectFile exEngine 5).2 ≠ none → (SelectFile exEngine 5).1 = exEngine)) :=
  ⟨by decide, selectFile_index_check exEngine 5 (by decide)⟩

/-- C9: for every request to the stream endpoint — any method, with or
without a Range header — if no file is selected the response status is 503
and no file bytes are written to the body. -/
theorem no_selected_file_503 (method rangeHeader : List Char) :
    (handleStream none method rangeHeader).status = 503 ∧
    (handleStream none method rangeHeader).body = [] :=
  ⟨rfl, rfl⟩

/-- C10: for every selected file with `totalLength ≥ 1`, a GET whose Range
header has both bounds empty (`bytes=` or `bytes=-`) is answered 206 with
`start = 0` and `end = totalLength - 1` — the whole file as a
partial-content response — not 416 and not a 200 full-content response. -/
theorem empty_bounds_range_serves_full_file (f : List Nat) (h1 : 1 ≤ f.length) :
    (handleStream (some f) methodGET rangeUnitTag).status = 206 ∧
    (handleStream (some f) methodGET rangeUnitTag).contentRange =
      some (contentRangeValue 0 ((f.length : Int) - 1) (f.length : Int)) ∧
    (handleStream (some f) methodGET rangeUnitTag).contentLength
      = some (f.length : Int) ∧
    (handleStream (some f) methodGET rangeUnitTag).body = f ∧
    (handleStream (some f) methodGET (rangeUnitTag ++ ['-'])).status = 206 ∧
    (handleStream (some f) methodGET (rangeUnitTag ++ ['-'])).body = f := by
  have hp1 : parseStart (rangeParts rangeUnitTag) = some 0 := by decide
  have hp2 : parseEnd (rangeParts rangeUnitTag) ((f.length : Int) - 1)
      = some ((f.length : Int) - 1) := rfl
  have hq1 : parseStart (rangeParts (rangeUnitTag ++ ['-'])) = some 0 := by decide
  have hq2 : parseEnd (rangeParts (rangeUnitTag ++ ['-'])) ((f.length : Int) - 1)
      = some ((f.length : Int) - 1) := rfl
  have h0 : (0 : Int) ≤ 0 := le_refl 0
  have hse : (0 : Int) ≤ (f.length : Int) - 1 := by omega
  have heL : (f.length : Int) - 1 < (f.length : Int) := by omega
  have h206a := handleRange_serves_valid f rangeUnitTag 0 ((f.length : Int) - 1)
    hp1 hp2 h0 hse heL
  have h206b := handleRange_serves_valid f (rangeUnitTag ++ ['-']) 0
    ((f.length : Int) - 1) hq1 hq2 h0 hse heL
  have hlen : ((f.length : Int) - 1 - 0 + 1) = (f.length : Int) := by omega
  have hbody : (f.drop (0 : Int).toNat).take ((f.length : Int) - 1 - 0 + 1).toNat
      = f := by
    have ht : ((f.length : Int) - 1 - 0 + 1).toNat = f.length := by omega
    rw [ht]
    show (f.drop 0).take f.length = f
    rw [List.drop_zero, List.take_length]
  rw [handleStream_get_range f rangeUnitTag (by decide), h206a,
      handleStream_get_range f (rangeUnitTag ++ ['-']) (by decide), h206b]
  refine ⟨rfl, rfl, ?_, ?_, rfl, ?_⟩
  · show some ((f.length : Int) - 1 - 0 + 1) = some (f.length : Int)
    rw [hlen]
  · exact hbody
  · exact hbody

/-- Witness for C10 at the 3-byte file `[7, 8, 9]`. -/
theorem empty_bounds_range_serves_full_file_witness :
    1 ≤ ([7, 8, 9] : List Nat).length ∧
    (handleStream (some [7, 8, 9]) methodGET rangeUnitTag).status = 206 ∧
    (handleStream (some [7, 8, 9]) methodGET rangeUnitTag).body = [7, 8, 9] := by
  have h := empty_bounds_range_serves_full_file [7, 8, 9] (by decide)
  exact ⟨by decide, h.1, h.2.2.2.1⟩

end QuickSeed
